import Mathlib

/-!
Verification of the Configuration & Schema Convergence Subsystem of the
banana-slides backend (`backend/app.py`).

Shallow embedding of the three components:

* Connection Tuner — the `set_sqlite_pragma` event hook: on each new
  connection it applies, in order, `PRAGMA journal_mode=WAL`,
  `PRAGMA synchronous=NORMAL` and `PRAGMA busy_timeout=30000` inside a
  `try/finally` whose `finally` closes the cursor; non-SQLite connections
  return before a cursor is opened.

* Schema Convergence Engine — `_ensure_settings_columns`: inspects the
  observed columns of the `settings` table, and for every compiled-in
  required column not observed, attempts `ALTER TABLE settings ADD COLUMN`
  in its own transaction, rolling back and continuing on a per-column
  failure; the inspection itself is wrapped in an outer `try/except` that
  logs and returns.

* Settings Cascade Resolver — `_load_settings_to_config` and the
  `get_output_language` route: merges the persisted Settings singleton
  into `app.config` with tri-state null/empty/value credential semantics,
  and everything is wrapped in `try/except` that leaves the config
  untouched on a store read failure.

Exceptions are modelled with `Except`/`Option` results and failure
predicates; the Python dict `app.config` is modelled as an association
list with overwrite-on-set semantics.
-/

/-! ## Connection Tuner (`set_sqlite_pragma`, app.py lines 39-56) -/

/-- A physical DBAPI connection as far as the tuner hook observes it:
whether it is an SQLite connection (`isinstance(dbapi_conn, sqlite3.Connection)`)
and the three pragma-controlled attributes the hook mutates. -/
structure DbConn where
  isSqlite : Bool
  journalMode : String
  syncMode : String
  busyTimeout : Nat
deriving DecidableEq, Repr

/-- The three pragma statements executed by `set_sqlite_pragma`, in source
order (app.py lines 52-54). -/
def pragmaStmts : List String :=
  ["PRAGMA journal_mode=WAL", "PRAGMA synchronous=NORMAL", "PRAGMA busy_timeout=30000"]

/-- Effect of successfully executing one pragma statement on the connection. -/
def applyPragma (c : DbConn) (s : String) : DbConn :=
  if s = "PRAGMA journal_mode=WAL" then { c with journalMode := "wal" }
  else if s = "PRAGMA synchronous=NORMAL" then { c with syncMode := "NORMAL" }
  else if s = "PRAGMA busy_timeout=30000" then { c with busyTimeout := 30000 }
  else c

/-- Run a list of statements on a cursor. `fails s = true` models
`cursor.execute(s)` raising: the statement has no effect, later statements
are not attempted, and the raised statement is reported. Returns the final
connection, the list of statements that executed successfully, and the
raised statement, if any. -/
def execStmts (fails : String → Bool) : DbConn → List String → DbConn × List String × Option String
  | c, [] => (c, [], none)
  | c, s :: rest =>
    if fails s then (c, [], some s)
    else
      let r := execStmts fails (applyPragma c s) rest
      (r.1, s :: r.2.1, r.2.2)

/-- Observable outcome of one invocation of the `set_sqlite_pragma` hook:
the connection state afterwards, whether a cursor is still open when the
hook returns, the statements that executed, and the exception (raised
statement) propagated to the caller, if any. -/
structure HookResult where
  conn : DbConn
  cursorOpen : Bool
  executed : List String
  raised : Option String
deriving DecidableEq, Repr

/-- `set_sqlite_pragma` (app.py lines 40-56). Non-SQLite connections
return immediately without opening a cursor. On SQLite connections a
cursor is opened and the three pragmas run inside `try/finally`: the
`finally` closes the cursor on both the normal and the raising path, and
there is no `except` clause, so a raised statement propagates. -/
def setSqlitePragma (fails : String → Bool) (c : DbConn) : HookResult :=
  if c.isSqlite = false then
    { conn := c, cursorOpen := false, executed := [], raised := none }
  else
    let r := execStmts fails c pragmaStmts
    { conn := r.1, cursorOpen := false, executed := r.2.1, raised := r.2.2 }

/-! ## Schema Convergence Engine (`_ensure_settings_columns`, app.py lines 194-228) -/

/-- One compiled-in required column of the `settings` table: name, SQL
type, and optional SQL default literal. In the source the type and default
are one string (for example `VARCHAR(10) DEFAULT 'zh'`); here the default
literal is split into its own field. -/
structure SchemaColumnSpec where
  name : String
  sqlType : String
  defaultLiteral : Option String
deriving DecidableEq, Repr

/-- The `required_columns` dict of `_ensure_settings_columns`
(app.py lines 203-211), in declaration (= iteration) order. -/
def requiredColumns : List SchemaColumnSpec :=
  [⟨"baidu_ocr_api_key", "VARCHAR(500)", none⟩,
   ⟨"output_language", "VARCHAR(10)", some "zh"⟩,
   ⟨"mineru_token", "VARCHAR(500)", none⟩,
   ⟨"image_caption_model", "VARCHAR(100)", none⟩,
   ⟨"mineru_api_base", "VARCHAR(255)", none⟩,
   ⟨"text_model", "VARCHAR(100)", none⟩,
   ⟨"image_model", "VARCHAR(100)", none⟩]

/-- State of the `settings` table: its columns (with their specs, in
creation order) and the log of committed `ALTER TABLE ... ADD COLUMN`
write operations, each recorded as the column spec it added. -/
structure DbState where
  columns : List SchemaColumnSpec
  writes : List SchemaColumnSpec
deriving DecidableEq, Repr

/-- Names of the observed columns, as returned by
`inspector.get_columns('settings')` (app.py line 215). -/
def observedNames (st : DbState) : List String :=
  st.columns.map SchemaColumnSpec.name

/-- The `missing` set of the spec: required column names not observed on
the table (set difference by column name, in declared order). -/
def missingNames (st : DbState) : List String :=
  (requiredColumns.map SchemaColumnSpec.name).filter
    (fun n => decide (n ∉ observedNames st))

/-- One iteration of the loop body of `_ensure_settings_columns`
(app.py lines 217-226): skip the column if its name is in the snapshot of
existing columns; otherwise attempt the `ALTER TABLE`, which on failure
(`fails c.name = true`) is rolled back leaving the state unchanged, and on
success commits, adding the column and recording the write. -/
def stepCol (fails : String → Bool) (existing : List String) (st : DbState)
    (c : SchemaColumnSpec) : DbState :=
  if c.name ∈ existing then st
  else if fails c.name then st
  else { columns := st.columns ++ [c], writes := st.writes ++ [c] }

/-- The loop of `_ensure_settings_columns` after a successful inspection:
the observed column names are snapshotted once, then every required column
is processed in declared order. -/
def ensureSettingsColumnsRun (fails : String → Bool) (st : DbState) : DbState :=
  requiredColumns.foldl (stepCol fails (observedNames st)) st

/-- `_ensure_settings_columns` (app.py lines 213-228). `inspectOk = false`
models the schema inspection itself raising: the outer `except` catches
it, logs a warning, and the function returns with the table untouched.
The function is total: no exception reaches the caller. -/
def ensureSettingsColumns (inspectOk : Bool) (fails : String → Bool) (st : DbState) : DbState :=
  if inspectOk then ensureSettingsColumnsRun fails st else st

/-! ## Settings Cascade Resolver (`_load_settings_to_config`, app.py lines 231-274) -/

/-- A value stored in `app.config`: the resolver writes strings and
integers. -/
inductive ConfigVal where
  | str (s : String)
  | nat (n : Nat)
deriving DecidableEq, Repr

/-- `app.config`, modelled as an association list from configuration key
to value with overwrite-on-set semantics. -/
def AppConfig := List (String × ConfigVal)

/-- Dict lookup: value of key `k` in the config, if present. -/
def getKey : AppConfig → String → Option ConfigVal
  | [], _ => none
  | (k0, v0) :: rest, k => if k0 = k then some v0 else getKey rest k

/-- Dict assignment `app.config[k] = v`: overwrite the first binding of
`k`, or append a new binding. -/
def setKey : AppConfig → String → ConfigVal → AppConfig
  | [], k, v => [(k, v)]
  | (k0, v0) :: rest, k, v =>
    if k0 = k then (k, v) :: rest else (k0, v0) :: setKey rest k v

/-- The persisted Settings singleton row, restricted to the fields the
resolver and the output-language accessor read. `api_base_url` and
`api_key` are nullable (`none` = never set, `some ""` = explicitly
cleared); `ai_provider_format` is modelled as a string whose Python
truthiness test `if settings.ai_provider_format:` is `≠ ""` (an absent
value behaves the same as the empty string under that test). -/
structure Settings where
  ai_provider_format : String
  api_base_url : Option String
  api_key : Option String
  image_resolution : String
  image_aspect_ratio : String
  max_description_workers : Nat
  max_image_workers : Nat
  output_language : String
deriving DecidableEq, Repr

/-- `_load_settings_to_config` (app.py lines 231-274). The whole body is
inside `try/except Exception`: `res = Except.error e` models
`Settings.get_settings()` raising, in which case the config is returned
untouched and no error reaches the caller (the function is total). On a
successful read the writes happen in source order. -/
def loadSettingsToConfig (res : Except String Settings) (cfg : AppConfig) : AppConfig :=
  match res with
  | Except.error _ => cfg
  | Except.ok s =>
    let c1 := if s.ai_provider_format ≠ "" then
        setKey cfg "AI_PROVIDER_FORMAT" (ConfigVal.str s.ai_provider_format)
      else cfg
    let c2 := match s.api_base_url with
      | none => c1
      | some u =>
        setKey (setKey c1 "GOOGLE_API_BASE" (ConfigVal.str u)) "OPENAI_API_BASE" (ConfigVal.str u)
    let c3 := match s.api_key with
      | none => c2
      | some k =>
        setKey (setKey c2 "GOOGLE_API_KEY" (ConfigVal.str k)) "OPENAI_API_KEY" (ConfigVal.str k)
    let c4 := setKey c3 "DEFAULT_RESOLUTION" (ConfigVal.str s.image_resolution)
    let c5 := setKey c4 "DEFAULT_ASPECT_RATIO" (ConfigVal.str s.image_aspect_ratio)
    let c6 := setKey c5 "MAX_DESCRIPTION_WORKERS" (ConfigVal.nat s.max_description_workers)
    setKey c6 "MAX_IMAGE_WORKERS" (ConfigVal.nat s.max_image_workers)

/-! ## Output-language accessor (`get_output_language` route, app.py lines 163-175) -/

/-- The fixed set of output language codes, from the route's contract
(`返回: zh, ja, en, auto`). -/
def languageCodes : List String := ["zh", "ja", "en", "auto"]

/-- Modelled from the spec: `Config.OUTPUT_LANGUAGE`, the compiled-in
default output language, lives in `config.py`, which is not part of the
analysed sources; the spec and the source comment (`默认中文`, default
Chinese) fix it as `"zh"`. -/
def outputLanguageDefault : String := "zh"

/-- Body of the `get_output_language` route handler (app.py lines
170-175): return the persisted row's `output_language`, falling back to
the compiled default when the settings read raises a store error; the
error is swallowed (the function is total). -/
def getOutputLanguage (res : Except String Settings) : String :=
  match res with
  | Except.ok s => s.output_language
  | Except.error _ => outputLanguageDefault

/-! ## Helper lemmas -/

/-- Lookup after assignment: reading key `q` after writing key `k` gives
the written value when the keys agree and the old lookup otherwise. -/
theorem getKey_setKey (cfg : AppConfig) (k q : String) (v : ConfigVal) :
    getKey (setKey cfg k v) q = if q = k then some v else getKey cfg q := by
  induction cfg with
  | nil =>
    by_cases h : q = k
    · subst h; simp [getKey, setKey]
    · have h2 : ¬k = q := fun hh => h hh.symm
      simp [getKey, setKey, h, h2]
  | cons p rest ih =>
    obtain ⟨k0, v0⟩ := p
    by_cases h0 : k0 = k
    · subst h0
      by_cases h : q = k0
      · subst h; simp [getKey, setKey]
      · have h2 : ¬k0 = q := fun hh => h hh.symm
        simp [getKey, setKey, h, h2]
    · by_cases h1 : k0 = q
      · subst h1
        simp [getKey, setKey, h0, fun hh : k0 = k => h0 hh]
      · by_cases h2 : q = k
        · subst h2
          simp [getKey, setKey, h0, h1, ih]
        · simp [getKey, setKey, h0, h1, h2, ih]

/-- Unrolling the convergence loop: starting from state `st` with the
snapshot `existing` of observed names, the loop appends exactly the
columns whose name is neither in the snapshot nor failing, to both the
column list and the write log. -/
theorem foldl_stepCol (fails : String → Bool) (existing : List String)
    (l : List SchemaColumnSpec) (st : DbState) :
    l.foldl (stepCol fails existing) st =
      { columns := st.columns ++
          l.filter (fun c => decide (c.name ∉ existing) && !fails c.name),
        writes := st.writes ++
          l.filter (fun c => decide (c.name ∉ existing) && !fails c.name) } := by
  induction l generalizing st with
  | nil => simp
  | cons c rest ih =>
    by_cases h1 : c.name ∈ existing
    · simp [List.foldl_cons, List.filter_cons, stepCol, h1, ih]
    · by_cases h2 : fails c.name = true
      · simp [List.foldl_cons, List.filter_cons, stepCol, h1, h2, ih]
      · simp [List.foldl_cons, List.filter_cons, stepCol, h1, h2, ih]

/-- Mapping names commutes with filtering by a predicate on names. -/
theorem map_name_filter (p : String → Bool) (l : List SchemaColumnSpec) :
    (l.filter (fun c => p c.name)).map SchemaColumnSpec.name
      = (l.map SchemaColumnSpec.name).filter p := by
  induction l with
  | nil => rfl
  | cons c rest ih => by_cases h : p c.name = true <;> simp [h, ih]

/-- Any required column whose add does not fail is observed after a
convergence run with successful inspection. -/
theorem required_name_mem_after (fails : String → Bool) (st : DbState)
    (c : SchemaColumnSpec) (hc : c ∈ requiredColumns) (hf : fails c.name = false) :
    c.name ∈ observedNames (ensureSettingsColumns true fails st) := by
  have h := foldl_stepCol fails (observedNames st) requiredColumns st
  simp only [ensureSettingsColumns, if_true, ensureSettingsColumnsRun, h]
  by_cases hm : c.name ∈ observedNames st
  · simp only [observedNames, List.map_append, List.mem_append]
    exact Or.inl hm
  · simp only [observedNames, List.map_append, List.mem_append]
    refine Or.inr (List.mem_map_of_mem _ ?_)
    rw [List.mem_filter]
    refine ⟨hc, ?_⟩
    rw [Bool.and_eq_true]
    exact ⟨decide_eq_true hm, by rw [hf]; rfl⟩

/-- If some statement of the list fails, running the list reports a
raised statement. -/
theorem execStmts_raises_of_fail (fails : String → Bool) (l : List String) :
    ∀ c : DbConn, (∃ p ∈ l, fails p = true) → (execStmts fails c l).2.2 ≠ none := by
  induction l with
  | nil =>
    intro c h
    obtain ⟨p, hp, _⟩ := h
    simp at hp
  | cons s rest ih =>
    intro c h
    by_cases hs : fails s = true
    · simp [execStmts, hs]
    · obtain ⟨p, hp, hf⟩ := h
      have hp2 : p ∈ rest := by
        rcases List.mem_cons.mp hp with h1 | h1
        · exact absurd (h1 ▸ hf) hs
        · exact h1
      simpa [execStmts, hs] using ih (applyPragma c s) ⟨p, hp2, hf⟩

/-! ## Claim theorems -/

/-- C2: for every pre-call state of the effective configuration, if
reading the persisted Settings row fails (store error) then the resolver
leaves the configuration exactly equal to its pre-call state — no key
added, removed, or changed — and, the function being total, no error is
propagated to the caller. -/
theorem resolveCascade_read_failure_leaves_config (cfg : AppConfig) (e : String) :
    loadSettingsToConfig (Except.error e) cfg = cfg := rfl

/-- C9: the convergence engine never propagates an exception: even when
the schema inspection itself fails (`inspectOk = false`), the failure is
caught by the outer handler and the function returns normally with the
table state untouched; the embedding is a total function, so no error
reaches the caller for any failure behaviour. -/
theorem converge_inspection_failure_caught (fails : String → Bool) (st : DbState) :
    ensureSettingsColumns false fails st = st := rfl

/-- C10: the cursor opened by the tuner hook on a new connection is
closed before the hook returns on every execution path, including the
path on which one of the three pragma statements raises. -/
theorem tuner_cursor_always_closed (fails : String → Bool) (c : DbConn) :
    (setSqlitePragma fails c).cursorOpen = false := by
  unfold setSqlitePragma
  split <;> rfl

/-- C5: a convergence run with no add failures computes the missing set
as the required specs minus the observed column names, attempts exactly
the missing columns in declared order with their declared type and
default (the write log grows by exactly that complementary subset), and
adds exactly those columns after the existing ones, which are preserved
verbatim — never removed, renamed, or retyped. -/
theorem converge_additive (st : DbState) :
    (ensureSettingsColumns true (fun _ => false) st).columns
      = st.columns ++ requiredColumns.filter (fun c => decide (c.name ∉ observedNames st))
  ∧ (ensureSettingsColumns true (fun _ => false) st).writes
      = st.writes ++ requiredColumns.filter (fun c => decide (c.name ∉ observedNames st))
  ∧ (requiredColumns.filter (fun c => decide (c.name ∉ observedNames st))).map
        SchemaColumnSpec.name
      = missingNames st := by
  have h := foldl_stepCol (fun _ => false) (observedNames st) requiredColumns st
  refine ⟨?_, ?_, ?_⟩
  · simp only [ensureSettingsColumns, if_true, ensureSettingsColumnsRun, h]
    simp
  · simp only [ensureSettingsColumns, if_true, ensureSettingsColumnsRun, h]
    simp
  · rw [missingNames, ← map_name_filter]

/-- C4: the convergence engine is idempotent — for every starting schema,
after a (failure-free) run the missing set is empty, so a second run with
no external schema change is a no-op: it performs zero write operations
(the write log does not grow) and the observed schema after the second
run equals the schema after the first. -/
theorem converge_idempotent (st : DbState) :
    missingNames (ensureSettingsColumns true (fun _ => false) st) = []
  ∧ ensureSettingsColumns true (fun _ => false)
        (ensureSettingsColumns true (fun _ => false) st)
      = ensureSettingsColumns true (fun _ => false) st := by
  have hmem : ∀ n ∈ requiredColumns.map SchemaColumnSpec.name,
      n ∈ observedNames (ensureSettingsColumns true (fun _ => false) st) := by
    intro n hn
    obtain ⟨c, hc, rfl⟩ := List.mem_map.mp hn
    exact required_name_mem_after (fun _ => false) st c hc rfl
  constructor
  · rw [missingNames, List.filter_eq_nil_iff]
    intro n hn
    simp [hmem n hn]
  · have h2 := foldl_stepCol (fun _ => false)
      (observedNames (ensureSettingsColumns true (fun _ => false) st)) requiredColumns
      (ensureSettingsColumns true (fun _ => false) st)
    have hfil : requiredColumns.filter
        (fun c => decide (c.name ∉ observedNames (ensureSettingsColumns true (fun _ => false) st))
          && !(fun _ => false) c.name) = [] := by
      rw [List.filter_eq_nil_iff]
      intro c hc
      simp [hmem c.name (List.mem_map_of_mem _ hc)]
    conv_lhs => rw [ensureSettingsColumns, if_pos rfl, ensureSettingsColumnsRun, h2, hfil]
    simp

/-- C3: if the ALTER TABLE attempt for a single column `cbad` fails, the
engine rolls back only that attempt and continues: every other required
column is observed after the run, so the missing set minus
`\x7bcbad\x7d` is empty; the run is a total function, so the failure
never aborts it. -/
theorem converge_partial_failure_isolated (st : DbState) (cbad : String) :
    (∀ c ∈ requiredColumns, c.name ≠ cbad →
        c.name ∈ observedNames (ensureSettingsColumns true (fun n => n == cbad) st))
  ∧ (missingNames (ensureSettingsColumns true (fun n => n == cbad) st)).filter
        (fun n => decide (n ≠ cbad)) = [] := by
  have hmem : ∀ c ∈ requiredColumns, c.name ≠ cbad →
      c.name ∈ observedNames (ensureSettingsColumns true (fun n => n == cbad) st) := by
    intro c hc hne
    exact required_name_mem_after (fun n => n == cbad) st c hc (beq_eq_false_iff_ne.mpr hne)
  refine ⟨hmem, ?_⟩
  rw [List.filter_eq_nil_iff]
  intro n hn
  rw [missingNames, List.mem_filter] at hn
  obtain ⟨hn1, hn2⟩ := hn
  obtain ⟨c, hc, rfl⟩ := List.mem_map.mp hn1
  intro hne
  have := hmem c hc (of_decide_eq_true hne)
  simp [this] at hn2

/-- Witness for C3 at a concrete input: with an empty settings table and
the add of `text_model` failing, the first required column
`baidu_ocr_api_key` is still observed after the run. -/
theorem converge_partial_failure_isolated_witness :
    ("baidu_ocr_api_key" : String) ∈ observedNames
      (ensureSettingsColumns true (fun n => n == "text_model") ⟨[], []⟩) :=
  (converge_partial_failure_isolated ⟨[], []⟩ "text_model").1
    ⟨"baidu_ocr_api_key", "VARCHAR(500)", none⟩ (by simp [requiredColumns]) (by decide)

/-- C7: the tuner hook is a no-op on non-SQLite connections — it returns
without executing any statement and without error — and on an SQLite
connection (absent pragma failures) it executes, in order, the WAL
journal-mode, NORMAL-synchronous and 30000 ms busy-timeout pragmas before
the connection is released, leaving the connection in WAL mode with a
30000 ms busy timeout. -/
theorem tuner_contract (fails : String → Bool) (c : DbConn) :
    (c.isSqlite = false →
        setSqlitePragma fails c
          = { conn := c, cursorOpen := false, executed := [], raised := none })
  ∧ (c.isSqlite = true →
        (setSqlitePragma (fun _ => false) c).executed = pragmaStmts
      ∧ (setSqlitePragma (fun _ => false) c).raised = none
      ∧ (setSqlitePragma (fun _ => false) c).conn.journalMode = "wal"
      ∧ (setSqlitePragma (fun _ => false) c).conn.syncMode = "NORMAL"
      ∧ (setSqlitePragma (fun _ => false) c).conn.busyTimeout = 30000) := by
  constructor
  · intro h
    simp [setSqlitePragma, h]
  · intro h
    simp [setSqlitePragma, h, pragmaStmts, execStmts, applyPragma]

/-- Witness for C7 at concrete connections: a non-SQLite connection is
untouched even with every statement failing, and an SQLite connection
ends with a 30000 ms busy timeout and WAL journal mode. -/
theorem tuner_contract_witness :
    setSqlitePragma (fun _ => true) ⟨false, "delete", "FULL", 0⟩
      = { conn := ⟨false, "delete", "FULL", 0⟩, cursorOpen := false,
          executed := [], raised := none }
  ∧ (setSqlitePragma (fun _ => false) ⟨true, "delete", "FULL", 0⟩).conn.busyTimeout = 30000
  ∧ (setSqlitePragma (fun _ => false) ⟨true, "delete", "FULL", 0⟩).conn.journalMode = "wal" :=
  ⟨(tuner_contract (fun _ => true) ⟨false, "delete", "FULL", 0⟩).1 rfl,
   ((tuner_contract (fun _ => false) ⟨true, "delete", "FULL", 0⟩).2 rfl).2.2.2.2,
   ((tuner_contract (fun _ => false) ⟨true, "delete", "FULL", 0⟩).2 rfl).2.2.1⟩

/-- C6 counterexample: the hook does not catch a pragma failure. On a
concrete SQLite connection where `PRAGMA synchronous=NORMAL` raises, the
hook propagates the raised statement to the caller instead of returning
normally, refuting the claim that the failure is caught and not
propagated. -/
theorem tuner_pragma_failure_cex :
    (setSqlitePragma (fun s => s == "PRAGMA synchronous=NORMAL")
        ⟨true, "delete", "FULL", 0⟩).raised = some "PRAGMA synchronous=NORMAL"
  ∧ (setSqlitePragma (fun s => s == "PRAGMA synchronous=NORMAL")
        ⟨true, "delete", "FULL", 0⟩).raised ≠ none := by
  constructor
  · rfl
  · decide

/-- C6 amended: if applying one of the three pragmas fails on an SQLite
connection, the hook's `finally` clause still closes the cursor, but
there is no `except` clause: the failure is not caught or logged, and
the error propagates to the caller. -/
theorem tuner_pragma_failure_propagates (fails : String → Bool) (c : DbConn)
    (hsql : c.isSqlite = true) (hf : ∃ p ∈ pragmaStmts, fails p = true) :
    (setSqlitePragma fails c).raised ≠ none
  ∧ (setSqlitePragma fails c).cursorOpen = false := by
  constructor
  · have h := execStmts_raises_of_fail fails pragmaStmts c hf
    simpa [setSqlitePragma, hsql] using h
  · unfold setSqlitePragma
    split <;> rfl

/-- Witness for C6 (amended) at a concrete input: with the busy-timeout
pragma failing on an SQLite connection, the error propagates and the
cursor is nevertheless closed. -/
theorem tuner_pragma_failure_propagates_witness :
    (setSqlitePragma (fun s => s == "PRAGMA busy_timeout=30000")
        ⟨true, "wal", "NORMAL", 0⟩).raised ≠ none
  ∧ (setSqlitePragma (fun s => s == "PRAGMA busy_timeout=30000")
        ⟨true, "wal", "NORMAL", 0⟩).cursorOpen = false :=
  tuner_pragma_failure_propagates (fun s => s == "PRAGMA busy_timeout=30000")
    ⟨true, "wal", "NORMAL", 0⟩ rfl
    ⟨"PRAGMA busy_timeout=30000", by decide, by decide⟩

/-- C1: tri-state credential semantics of the cascade resolver, for every
persisted Settings row and prior effective configuration. If the
persisted `api_key` is null, both key slots keep their pre-existing
(environment/default) values; if it is non-null (empty string included),
the identical value overwrites both the Google and the OpenAI key slot —
the empty string thus overrides any environment value with the empty
value. The same holds for `api_base_url` and the two base-URL slots. -/
theorem cascade_tristate_credentials (cfg : AppConfig) (s : Settings) :
    (s.api_key = none →
        getKey (loadSettingsToConfig (Except.ok s) cfg) "GOOGLE_API_KEY"
          = getKey cfg "GOOGLE_API_KEY"
      ∧ getKey (loadSettingsToConfig (Except.ok s) cfg) "OPENAI_API_KEY"
          = getKey cfg "OPENAI_API_KEY")
  ∧ (∀ k, s.api_key = some k →
        getKey (loadSettingsToConfig (Except.ok s) cfg) "GOOGLE_API_KEY"
          = some (ConfigVal.str k)
      ∧ getKey (loadSettingsToConfig (Except.ok s) cfg) "OPENAI_API_KEY"
          = some (ConfigVal.str k))
  ∧ (s.api_base_url = none →
        getKey (loadSettingsToConfig (Except.ok s) cfg) "GOOGLE_API_BASE"
          = getKey cfg "GOOGLE_API_BASE"
      ∧ getKey (loadSettingsToConfig (Except.ok s) cfg) "OPENAI_API_BASE"
          = getKey cfg "OPENAI_API_BASE")
  ∧ (∀ u, s.api_base_url = some u →
        getKey (loadSettingsToConfig (Except.ok s) cfg) "GOOGLE_API_BASE"
          = some (ConfigVal.str u)
      ∧ getKey (loadSettingsToConfig (Except.ok s) cfg) "OPENAI_API_BASE"
          = some (ConfigVal.str u)) := by
  obtain ⟨apf, abu, ak, ir, iar, mdw, miw, ol⟩ := s
  refine ⟨?_, ?_, ?_, ?_⟩
  · rintro rfl
    cases abu <;> by_cases hf : apf ≠ "" <;>
      simp [loadSettingsToConfig, getKey_setKey, hf]
  · rintro k rfl
    cases abu <;> by_cases hf : apf ≠ "" <;>
      simp [loadSettingsToConfig, getKey_setKey, hf]
  · rintro rfl
    cases ak <;> by_cases hf : apf ≠ "" <;>
      simp [loadSettingsToConfig, getKey_setKey, hf]
  · rintro u rfl
    cases ak <;> by_cases hf : apf ≠ "" <;>
      simp [loadSettingsToConfig, getKey_setKey, hf]

/-- Witness for C1 at a concrete row and configuration: with persisted
`api_key = some ""` (explicitly cleared) and `api_base_url = none`
(never set), over an environment configuration holding an env key and an
env base, the effective Google key slot becomes the empty string while
the Google base slot keeps its environment value. -/
theorem cascade_tristate_credentials_witness :
    getKey (loadSettingsToConfig
        (Except.ok ⟨"gemini", none, some "", "2K", "16:9", 5, 3, "zh"⟩)
        [("GOOGLE_API_KEY", ConfigVal.str "env-k"),
         ("GOOGLE_API_BASE", ConfigVal.str "env-b")])
      "GOOGLE_API_KEY" = some (ConfigVal.str "")
  ∧ getKey (loadSettingsToConfig
        (Except.ok ⟨"gemini", none, some "", "2K", "16:9", 5, 3, "zh"⟩)
        [("GOOGLE_API_KEY", ConfigVal.str "env-k"),
         ("GOOGLE_API_BASE", ConfigVal.str "env-b")])
      "GOOGLE_API_BASE"
    = getKey [("GOOGLE_API_KEY", ConfigVal.str "env-k"),
              ("GOOGLE_API_BASE", ConfigVal.str "env-b")] "GOOGLE_API_BASE" :=
  ⟨((cascade_tristate_credentials
      [("GOOGLE_API_KEY", ConfigVal.str "env-k"),
       ("GOOGLE_API_BASE", ConfigVal.str "env-b")]
      ⟨"gemini", none, some "", "2K", "16:9", 5, 3, "zh"⟩).2.1 "" rfl).1,
   ((cascade_tristate_credentials
      [("GOOGLE_API_KEY", ConfigVal.str "env-k"),
       ("GOOGLE_API_BASE", ConfigVal.str "env-b")]
      ⟨"gemini", none, some "", "2K", "16:9", 5, 3, "zh"⟩).2.2.1 rfl).1⟩

/-- C8: the output-language accessor returns the persisted row's
output-language value when the settings read succeeds and the compiled-in
default when it fails, without propagating the error (the handler is a
total function); whenever the persisted value is one of the fixed
language codes, so is the returned value. -/
theorem output_language_accessor_contract (res : Except String Settings) :
    (∀ s, res = Except.ok s → getOutputLanguage res = s.output_language)
  ∧ (∀ e, res = Except.error e → getOutputLanguage res = outputLanguageDefault)
  ∧ ((∀ s, res = Except.ok s → s.output_language ∈ languageCodes)
      → getOutputLanguage res ∈ languageCodes) := by
  refine ⟨?_, ?_, ?_⟩
  · rintro s rfl; rfl
  · rintro e rfl; rfl
  · intro h
    cases res with
    | ok s => exact h s rfl
    | error e => simp [getOutputLanguage, outputLanguageDefault, languageCodes]

/-- Witness for C8 at concrete inputs: a failing read returns a value in
the fixed language-code set, and a successful read of a row whose
language is `"ja"` returns `"ja"`. -/
theorem output_language_accessor_contract_witness :
    getOutputLanguage (Except.error "store down") ∈ languageCodes
  ∧ getOutputLanguage (Except.ok ⟨"gemini", none, none, "2K", "16:9", 5, 3, "ja"⟩) = "ja" :=
  ⟨(output_language_accessor_contract (Except.error "store down")).2.2
      (fun _ h => nomatch h),
   (output_language_accessor_contract
      (Except.ok ⟨"gemini", none, none, "2K", "16:9", 5, 3, "ja"⟩)).1
      ⟨"gemini", none, none, "2K", "16:9", 5, 3, "ja"⟩ rfl⟩
